import Mathlib

/-!
Verification of the `mlua-tree-sitter` adapter (src/src/lib.rs), a shim that
moves tree-sitter parse trees across the Rust/Lua FFI boundary.

The Rust code in `src/src/lib.rs` is embedded shallowly.  The external
collaborators (the Lua interpreter primitives reached through `mlua::ffi`, and
the vendored `ltreesitter` C module, neither of which is under `src/`) are
modelled from the specification's description of their contracts; each such
definition carries a doc comment starting `Modelled from the spec:`.

The state carries, per native tree handle, an explicit ownership tag (host /
raw / script wrapper / freed) and a count of how many times the handle has been
released, so that single-ownership and exactly-once-free properties are
statable.
-/

namespace MluaTreeSitter

/-- A byte of source text. -/
abbrev Byte := Nat

/-- Observable value of a parse tree: the root node's kind and the tree's text
content, as observed through `root_node().kind()` and text queries. -/
structure TreeVal where
  rootKind : String
  text : List Byte
deriving DecidableEq, Repr

/-- Ownership state of a native `TSTree` handle.  `raw` is the state after
`Tree::into_raw` (src/src/lib.rs:151): the Rust wrapper has relinquished the
pointer and nothing manages it yet. -/
inductive Owner where
  | host : Owner
  | raw : Owner
  | script : Nat → Owner
  | freed : Owner
deriving DecidableEq, Repr

/-- A native tree handle in the heap: its identity, its observable value, who
owns it, and how many times it has been released. -/
structure HandleRec where
  id : Nat
  val : TreeVal
  owner : Owner
  frees : Nat
deriving DecidableEq, Repr

/-- Modelled from the spec: the script-side wrapper object holds a ParseTree
handle and an internal copy of the source bytes; its lifetime is managed by
the Lua garbage collector (spec section 3). -/
structure Wrapper where
  id : Nat
  treeHandle : Nat
  srcCopy : List Byte
deriving DecidableEq, Repr

/-- A script-side node reference: a position record inside the tree owned by a
given wrapper, with the node kind observable there. -/
structure NodeVal where
  kind : String
  wrapperId : Nat
deriving DecidableEq, Repr

/-- A Lua value as far as this adapter can observe it. -/
inductive ScriptValue where
  | nil : ScriptValue
  | number : Int → ScriptValue
  | treeWrapper : Nat → ScriptValue
  | nodeRef : NodeVal → ScriptValue
deriving DecidableEq, Repr

/-- The state of one Lua runtime instance together with the native tree heap:
registered modules, global variables, live wrapper objects, tree handles, the
allocators' fresh-id counters, and whether the runtime can currently allocate a
native call frame. -/
structure LuaState where
  loaded : List String
  globals : List String
  wrappers : List Wrapper
  handles : List HandleRec
  nextWrapper : Nat
  nextHandle : Nat
  canAlloc : Bool
deriving DecidableEq, Repr

/-- The two error kinds of the adapter (spec section 7). -/
inductive LErr where
  | runtimeError : LErr
  | typeMismatch : LErr
deriving DecidableEq, Repr

/-- Look up a live wrapper object by id. -/
def findWrapper (st : LuaState) (w : Nat) : Option Wrapper :=
  st.wrappers.find? (fun x => x.id == w)

/-- Look up a tree handle by id. -/
def findHandle (st : LuaState) (h : Nat) : Option HandleRec :=
  st.handles.find? (fun x => x.id == h)

/-- Retag the owner of one tree handle. -/
def setOwner (st : LuaState) (h : Nat) (o : Owner) : LuaState :=
  { st with
      handles := st.handles.map (fun r =>
        if r.id == h then { r with owner := o } else r) }

/-- Modelled from the spec: creating the native callback function (mlua's
`create_c_function`) fails with a RuntimeError when the script runtime cannot
allocate the native call frame (spec sections 4.1, 4.2, 7). -/
def create_c_function (st : LuaState) : Except LErr Unit :=
  if st.canAlloc then Except.ok () else Except.error LErr.runtimeError

/-- Modelled from the spec: `luaL_requiref` is a runtime-level require: if the
module is already registered it is a no-op that reuses the existing module
table; otherwise the opener runs and the module is recorded in the
loaded-modules registry; when the set-global flag is true a global variable of
the module's name is also created (spec sections 4.1, 6). -/
def luaL_requiref (st : LuaState) (name : String) (glb : Bool) : LuaState :=
  let st1 :=
    if st.loaded.contains name then st
    else { st with loaded := name :: st.loaded }
  if glb then
    if st1.globals.contains name then st1
    else { st1 with globals := name :: st1.globals }
  else st1

/-- Modelled from the spec: the native module's ingestion routine
`ltreesitter_push_tree` takes a tree handle and a (length, pointer) pair for
the source bytes, copies those bytes into memory it manages, adopts the tree
handle into a fresh garbage-collected wrapper whose finalizer will release the
handle, and pushes the wrapper (spec sections 3, 4.2, 6). -/
def ltreesitter_push_tree (st : LuaState) (h : Nat) (src : List Byte) :
    ScriptValue × LuaState :=
  let w : Wrapper := { id := st.nextWrapper, treeHandle := h, srcCopy := src }
  (ScriptValue.treeWrapper w.id,
   { setOwner st h (Owner.script w.id) with
       wrappers := w :: st.wrappers, nextWrapper := st.nextWrapper + 1 })

/-- Modelled from the spec: the tree-accessor routine
`ltreesitter_check_tree_arg` returns the internal tree-record pointer when the
argument is a tree wrapper recognized by the native module, and fails with a
TypeMismatch error otherwise (spec sections 4.3, 6). -/
def ltreesitter_check_tree_arg (st : LuaState) (v : ScriptValue) :
    Except LErr Wrapper :=
  match v with
  | ScriptValue.treeWrapper w =>
    match findWrapper st w with
    | some wr => Except.ok wr
    | none => Except.error LErr.typeMismatch
  | _ => Except.error LErr.typeMismatch

/-- Modelled from the spec: the node-accessor routine `ltreesitter_check_node`
returns the raw node-position record when the argument is a recognized node
reference, and fails with a TypeMismatch error otherwise (spec sections 4.4,
6). -/
def ltreesitter_check_node (v : ScriptValue) : Except LErr NodeVal :=
  match v with
  | ScriptValue.nodeRef n => Except.ok n
  | _ => Except.error LErr.typeMismatch

/-- Modelled from the spec: `ts_tree_copy` duplicates the native tree
structure, yielding a new, independently owned handle with the same observable
tree value; `Tree::from_raw` then adopts that duplicate as host-owned (spec
section 4.3). -/
def ts_tree_copy (st : LuaState) (v : TreeVal) : Nat × LuaState :=
  (st.nextHandle,
   { st with
       handles :=
         { id := st.nextHandle, val := v, owner := Owner.host, frees := 0 }
           :: st.handles,
       nextHandle := st.nextHandle + 1 })

/-- The host-side `TreeWithSource` value before outbound transfer: a
host-owned tree handle paired with the borrowed source bytes
(src/src/lib.rs:116-119). -/
structure TreeWithSource where
  tree : Nat
  src : List Byte
deriving DecidableEq, Repr

/-- A borrowed view of the source bytes returned by the inbound tree
transfer: it aliases the copy held inside a script-side wrapper, so it is
only readable while that wrapper is live (src/src/lib.rs:191-194). -/
structure SrcRef where
  wrapperId : Nat
  len : Nat
deriving DecidableEq, Repr

/-- The result of the inbound tree transfer: a host-owned duplicate tree
handle and a borrowed view of the wrapper's source bytes
(src/src/lib.rs:200). -/
structure TWSResult where
  tree : Nat
  src : SrcRef
deriving DecidableEq, Repr

/-- Dereference a borrowed source view: defined only while the wrapper it
aliases is still live in the runtime. -/
def readSrc (st : LuaState) (r : SrcRef) : Option (List Byte) :=
  (findWrapper st r.wrapperId).map (fun w => w.srcCopy.take r.len)

/-- Outbound transfer, embedded from `impl IntoLua for TreeWithSource`
(src/src/lib.rs:132-157).  The order of effects follows the source: first
`self.tree.into_raw()` relinquishes the handle (line 151), then
`create_c_function` may fail (line 154), then the `load_tree` callback hands
the raw handle and the (length, pointer) source pair to
`ltreesitter_push_tree` (lines 134-148, 155). -/
def TreeWithSource.into_lua (tws : TreeWithSource) (st : LuaState) :
    Except LErr ScriptValue × LuaState :=
  let st1 := setOwner st tws.tree Owner.raw
  match create_c_function st1 with
  | Except.error e => (Except.error e, st1)
  | Except.ok _ =>
    let p := ltreesitter_push_tree st1 tws.tree tws.src
    (Except.ok p.1, p.2)

/-- Inbound tree transfer, embedded from `impl FromLua for TreeWithSource`
(src/src/lib.rs:161-203): create the `get_tree` callback (line 186, may fail),
have `ltreesitter_check_tree_arg` fetch the wrapper's tree record (lines
165-172, 187), read the wrapper's copied source bytes as a borrowed slice
(lines 190-194), and duplicate the native tree with `ts_tree_copy`, adopting
the duplicate as host-owned (lines 195-200). -/
def TreeWithSource.from_lua (v : ScriptValue) (st : LuaState) :
    Except LErr TWSResult × LuaState :=
  match create_c_function st with
  | Except.error e => (Except.error e, st)
  | Except.ok _ =>
    match ltreesitter_check_tree_arg st v with
    | Except.error e => (Except.error e, st)
    | Except.ok wr =>
      match findHandle st wr.treeHandle with
      | none => (Except.error LErr.typeMismatch, st)
      | some hr =>
        let p := ts_tree_copy st hr.val
        (Except.ok
          { tree := p.1,
            src := { wrapperId := wr.id, len := wr.srcCopy.length } },
         p.2)

/-- The `TSNode` newtype around a node reference (src/src/lib.rs:207). -/
structure TSNode where
  node : NodeVal
deriving DecidableEq, Repr

/-- `Deref for TSNode` (src/src/lib.rs:209-214): `&self.0`. -/
def TSNode.deref (n : TSNode) : NodeVal := n.node

/-- `DerefMut for TSNode` (src/src/lib.rs:216-220): `&mut self.0`. -/
def TSNode.derefMut (n : TSNode) : NodeVal := n.node

/-- Inbound node transfer, embedded from `impl FromLua for TSNode`
(src/src/lib.rs:224-249): create the `get_node` callback (line 242, may
fail), have `ltreesitter_check_node` fetch the raw node record (lines
228-235, 243), and return it wrapped, via `Node::from_raw`, with no copy of
tree or source data and no ownership change (lines 245-247). -/
def TSNode.from_lua (v : ScriptValue) (st : LuaState) :
    Except LErr TSNode × LuaState :=
  match create_c_function st with
  | Except.error e => (Except.error e, st)
  | Except.ok _ =>
    match ltreesitter_check_node v with
    | Except.error e => (Except.error e, st)
    | Except.ok n => (Except.ok { node := n }, st)

/-- Module registration, embedded from `Module::open_ltreesitter`
(src/src/lib.rs:87-105): create the `load_ltreesitter` callback (line 101,
may fail), then call it; the callback invokes `luaL_requiref` with module
name "ltreesitter" and the set-global flag `false` (lines 93-98). -/
def open_ltreesitter (st : LuaState) : Except LErr Unit × LuaState :=
  match create_c_function st with
  | Except.error e => (Except.error e, st)
  | Except.ok _ => (Except.ok (), luaL_requiref st "ltreesitter" false)

/-- Modelled from the spec: collecting a script-side wrapper runs its
finalizer, which releases the ParseTree handle it owns exactly once and
removes the wrapper from the runtime (spec sections 3, 4.2). -/
def collectWrapper (st : LuaState) (w : Nat) : LuaState :=
  match findWrapper st w with
  | none => st
  | some wr =>
    { st with
        wrappers := st.wrappers.filter (fun x => x.id != w),
        handles := st.handles.map (fun r =>
          if r.id == wr.treeHandle && r.owner == Owner.script w then
            { r with owner := Owner.freed, frees := r.frees + 1 }
          else r) }

/-- Host-side drop of a tree value: Rust frees the native handle when a
host-owned `tree_sitter::Tree` is dropped; a value already consumed by
`into_raw` or moved into Lua cannot be dropped again, so only a host-owned
handle is affected. -/
def hostDrop (st : LuaState) (h : Nat) : LuaState :=
  { st with handles := st.handles.map (fun r =>
      if r.id == h && r.owner == Owner.host then
        { r with owner := Owner.freed, frees := r.frees + 1 }
      else r) }

/-- Destroying the runtime instance: every wrapper is collected (freeing the
script-owned handles) and all runtime-held data is discarded. -/
def destroyRuntime (st : LuaState) : LuaState :=
  { st with
      loaded := [], globals := [], wrappers := [],
      handles := st.handles.map (fun r =>
        match r.owner with
        | Owner.script _ => { r with owner := Owner.freed, frees := r.frees + 1 }
        | _ => r) }

/-- A node reference is valid while its wrapper is live and still owns its
tree handle. -/
def nodeValid (st : LuaState) (n : NodeVal) : Bool :=
  match findWrapper st n.wrapperId with
  | none => false
  | some wr =>
    match findHandle st wr.treeHandle with
    | none => false
    | some hr => hr.owner == Owner.script n.wrapperId

/-- A Lua value is a tree wrapper recognized by the native module. -/
def isTreeWrapper (st : LuaState) (v : ScriptValue) : Bool :=
  match v with
  | ScriptValue.treeWrapper w => (findWrapper st w).isSome
  | _ => false

/-- A Lua value is a node reference recognized by the native module. -/
def isNodeRef (v : ScriptValue) : Bool :=
  match v with
  | ScriptValue.nodeRef _ => true
  | _ => false

/-- All live wrapper ids are below the fresh-id counter. -/
def wrappersFresh (st : LuaState) : Bool :=
  st.wrappers.all (fun w => w.id < st.nextWrapper)

/-- All tree-handle ids are below the fresh-id counter. -/
def handlesFresh (st : LuaState) : Bool :=
  st.handles.all (fun r => r.id < st.nextHandle)

/-! ### Concrete states used by the witnesses -/

/-- A concrete tree value: root kind "module", three bytes of text. -/
def t0 : TreeVal := { rootKind := "module", text := [100, 101, 102] }

/-- A concrete host-owned handle for the tree `t0`. -/
def hr0 : HandleRec := { id := 0, val := t0, owner := Owner.host, frees := 0 }

/-- A fresh runtime instance whose heap holds the host-owned handle `hr0`. -/
def st0 : LuaState :=
  { loaded := [], globals := [], wrappers := [], handles := [hr0],
    nextWrapper := 5, nextHandle := 1, canAlloc := true }

/-- A concrete script-side wrapper owning handle 7 with a two-byte source
copy. -/
def w1 : Wrapper := { id := 2, treeHandle := 7, srcCopy := [10, 11] }

/-- The handle owned by wrapper `w1`. -/
def hr1 : HandleRec := { id := 7, val := t0, owner := Owner.script 2, frees := 0 }

/-- A runtime instance holding the live wrapper `w1` and its handle. -/
def st1 : LuaState :=
  { loaded := ["ltreesitter"], globals := [], wrappers := [w1],
    handles := [hr1], nextWrapper := 3, nextHandle := 8, canAlloc := true }

/-- `st0` with a runtime that cannot allocate a native call frame. -/
def st0bad : LuaState := { st0 with canAlloc := false }

/-! ### Helper lemmas -/

/-- Searching a handle list by id commutes with mapping an id-preserving
function over it. -/
theorem find_id_map_handles (l : List HandleRec) (f : HandleRec → HandleRec)
    (hf : ∀ r, (f r).id = r.id) (h : Nat) :
    (l.map f).find? (fun r => r.id == h) =
      (l.find? (fun r => r.id == h)).map f := by
  induction l with
  | nil => rfl
  | cons a t ih =>
    simp only [List.map_cons, List.find?]
    rw [hf a]
    cases a.id == h <;> simp [ih]

/-- A wrapper search fails when no element of the list has the sought id. -/
theorem findW_none_of_all (l : List Wrapper) (n : Nat)
    (h : ∀ w ∈ l, (w.id == n) = false) :
    l.find? (fun w => w.id == n) = none := by
  induction l with
  | nil => rfl
  | cons a t ih =>
    simp only [List.find?]
    rw [h a (by simp)]
    exact ih (fun w hw => h w (by simp [hw]))

/-- Retagging a handle changes no state component except the handle list. -/
@[simp]
theorem setOwner_canAlloc (st : LuaState) (h : Nat) (o : Owner) :
    (setOwner st h o).canAlloc = st.canAlloc := rfl

/-- Retagging a handle keeps the wrapper list. -/
@[simp]
theorem setOwner_wrappers (st : LuaState) (h : Nat) (o : Owner) :
    (setOwner st h o).wrappers = st.wrappers := rfl

/-- Retagging a handle keeps the wrapper counter. -/
@[simp]
theorem setOwner_nextWrapper (st : LuaState) (h : Nat) (o : Owner) :
    (setOwner st h o).nextWrapper = st.nextWrapper := rfl

/-- Retagging a handle keeps the handle counter. -/
@[simp]
theorem setOwner_nextHandle (st : LuaState) (h : Nat) (o : Owner) :
    (setOwner st h o).nextHandle = st.nextHandle := rfl

/-- Retagging a handle keeps the loaded-modules registry. -/
@[simp]
theorem setOwner_loaded (st : LuaState) (h : Nat) (o : Owner) :
    (setOwner st h o).loaded = st.loaded := rfl

/-- Retagging a handle keeps the globals. -/
@[simp]
theorem setOwner_globals (st : LuaState) (h : Nat) (o : Owner) :
    (setOwner st h o).globals = st.globals := rfl

/-- Retagging a handle commutes with handle lookup. -/
theorem findHandle_setOwner (st : LuaState) (g h : Nat) (o : Owner) :
    findHandle (setOwner st h o) g =
      (findHandle st g).map (fun r =>
        if r.id == h then { r with owner := o } else r) := by
  unfold findHandle setOwner
  exact find_id_map_handles st.handles _
    (fun r => by cases hrh : r.id == h <;> simp [hrh]) g

/-- A host-side drop commutes with handle lookup. -/
theorem findHandle_hostDrop (st : LuaState) (g h : Nat) :
    findHandle (hostDrop st h) g =
      (findHandle st g).map (fun r =>
        if r.id == h && r.owner == Owner.host then
          { r with owner := Owner.freed, frees := r.frees + 1 }
        else r) := by
  unfold findHandle hostDrop
  exact find_id_map_handles st.handles _
    (fun r => by cases hrh : r.id == h && r.owner == Owner.host <;> simp [hrh]) g

/-- Collecting a live wrapper commutes with handle lookup. -/
theorem findHandle_collect_some (st : LuaState) (g w2 : Nat) (wr : Wrapper)
    (hw : findWrapper st w2 = some wr) :
    findHandle (collectWrapper st w2) g =
      (findHandle st g).map (fun r =>
        if r.id == wr.treeHandle && r.owner == Owner.script w2 then
          { r with owner := Owner.freed, frees := r.frees + 1 }
        else r) := by
  unfold findHandle collectWrapper
  rw [hw]
  exact find_id_map_handles st.handles _
    (fun r => by
      cases hrh : r.id == wr.treeHandle && r.owner == Owner.script w2 <;>
        simp [hrh]) g

/-- Collecting an unknown wrapper id is a no-op. -/
theorem collect_none (st : LuaState) (w2 : Nat)
    (hw : findWrapper st w2 = none) : collectWrapper st w2 = st := by
  unfold collectWrapper
  rw [hw]

/-- Collecting a live wrapper removes exactly the wrappers of that id. -/
theorem collect_wrappers_some (st : LuaState) (w2 : Nat) (wr : Wrapper)
    (hw : findWrapper st w2 = some wr) :
    (collectWrapper st w2).wrappers =
      st.wrappers.filter (fun x => x.id != w2) := by
  unfold collectWrapper
  rw [hw]

/-- After collecting a wrapper, no wrapper of that id can be found. -/
theorem findWrapper_collect_self (st : LuaState) (w2 : Nat) (wr : Wrapper)
    (hw : findWrapper st w2 = some wr) :
    findWrapper (collectWrapper st w2) w2 = none := by
  unfold findWrapper
  rw [collect_wrappers_some st w2 wr hw]
  apply findW_none_of_all
  intro x hx
  have h2 := List.of_mem_filter hx
  simpa using h2

/-- Shape of a successful outbound transfer: the explicit result value and
post-state computed by `TreeWithSource.into_lua` when the runtime can
allocate. -/
theorem into_lua_ok (st : LuaState) (tws : TreeWithSource)
    (hca : st.canAlloc = true) :
    TreeWithSource.into_lua tws st =
      (Except.ok (ScriptValue.treeWrapper st.nextWrapper),
       { setOwner (setOwner st tws.tree Owner.raw) tws.tree
           (Owner.script st.nextWrapper) with
           wrappers :=
             { id := st.nextWrapper, treeHandle := tws.tree,
               srcCopy := tws.src } :: st.wrappers,
           nextWrapper := st.nextWrapper + 1 }) := by
  simp only [TreeWithSource.into_lua, create_c_function, ltreesitter_push_tree,
    setOwner_canAlloc, setOwner_wrappers, setOwner_nextWrapper, hca, if_true]

/-- Shape of a failing outbound transfer: when the runtime cannot allocate,
the error is returned with the tree handle already retagged `raw` by
`into_raw`. -/
theorem into_lua_fail (st : LuaState) (tws : TreeWithSource)
    (hca : st.canAlloc = false) :
    TreeWithSource.into_lua tws st =
      (Except.error LErr.runtimeError, setOwner st tws.tree Owner.raw) := by
  simp only [TreeWithSource.into_lua, create_c_function, setOwner_canAlloc, hca,
    if_false, Bool.false_eq_true]

/-- Shape of a successful inbound tree transfer: the explicit result and
post-state computed by `TreeWithSource.from_lua` on a live wrapper. -/
theorem from_lua_ok (st : LuaState) (w2 : Nat) (wr : Wrapper) (hr : HandleRec)
    (hca : st.canAlloc = true)
    (hw : findWrapper st w2 = some wr)
    (hh : findHandle st wr.treeHandle = some hr) :
    TreeWithSource.from_lua (ScriptValue.treeWrapper w2) st =
      (Except.ok
        { tree := st.nextHandle,
          src := { wrapperId := wr.id, len := wr.srcCopy.length } },
       { st with
           handles :=
             { id := st.nextHandle, val := hr.val, owner := Owner.host,
               frees := 0 } :: st.handles,
           nextHandle := st.nextHandle + 1 }) := by
  simp only [TreeWithSource.from_lua, create_c_function, ltreesitter_check_tree_arg,
    ts_tree_copy, hca, hw, hh, if_true]

/-- Handle lookup ignores the wrapper components of a state. -/
theorem findHandle_mk_wrappers (x : LuaState) (ws : List Wrapper) (n g : Nat) :
    findHandle { x with wrappers := ws, nextWrapper := n } g = findHandle x g :=
  rfl

/-- Wrapper lookup in the state produced by a successful outbound transfer
finds the fresh wrapper. -/
theorem findWrapper_push (x : LuaState) (w : Wrapper) (n : Nat)
    (hn : w.id = n) :
    findWrapper { x with wrappers := w :: x.wrappers, nextWrapper := n + 1 } n =
      some w := by
  unfold findWrapper
  simp [List.find?, hn]

/-! ### Claim theorems -/

/-- C10: TSNode wrapping is a pure projection: dereferencing the wrapper,
immutably or mutably, yields exactly the wrapped node unchanged, so wrap
followed by deref is the identity and mutates nothing. -/
theorem tsnode_deref_identity (m : NodeVal) :
    (TSNode.mk m).deref = m ∧ (TSNode.mk m).derefMut = m :=
  ⟨rfl, rfl⟩

/-- C9: registration creates no global variable: `open_ltreesitter` leaves
the runtime's globals unchanged (the require call passes the set-global flag
false), and its only possible effect is to add "ltreesitter" to the
loaded-modules registry; wrappers and handles are untouched. -/
theorem open_ltreesitter_no_global (st : LuaState) :
    (open_ltreesitter st).2.globals = st.globals ∧
      ((open_ltreesitter st).2.loaded = st.loaded ∨
        (open_ltreesitter st).2.loaded = "ltreesitter" :: st.loaded) ∧
      (open_ltreesitter st).2.wrappers = st.wrappers ∧
      (open_ltreesitter st).2.handles = st.handles := by
  unfold open_ltreesitter create_c_function luaL_requiref
  cases hca : st.canAlloc
  · simp
  · cases hld : st.loaded.contains "ltreesitter" <;> simp [hld]

/-- C8: inbound node transfer makes no copy and changes no ownership: for a
recognized node reference, `TSNode.from_lua` returns exactly the node stored
in the script-side node record and returns the runtime state unchanged. -/
theorem node_from_lua_no_copy (st : LuaState) (n : NodeVal)
    (hca : st.canAlloc = true) :
    TSNode.from_lua (ScriptValue.nodeRef n) st = (Except.ok { node := n }, st) := by
  unfold TSNode.from_lua create_c_function ltreesitter_check_node
  simp [hca]

/-- Witness for C8 at a concrete node and state. -/
theorem node_from_lua_no_copy_witness :
    TSNode.from_lua (ScriptValue.nodeRef { kind := "module", wrapperId := 2 }) st1 =
      (Except.ok { node := { kind := "module", wrapperId := 2 } }, st1) :=
  node_from_lua_no_copy st1 { kind := "module", wrapperId := 2 } rfl

/-- C5: type-mismatch rejection: when the runtime can allocate the accessor
callback, the inbound tree transfer fails with TypeMismatch, leaving the
state unchanged (no crash), on every value that is not a tree wrapper
recognized by the native module; and the inbound node transfer does the same
on every value that is not a recognized node reference. -/
theorem from_lua_type_mismatch (st : LuaState) (v u : ScriptValue)
    (hca : st.canAlloc = true)
    (hv : isTreeWrapper st v = false) (hu : isNodeRef u = false) :
    TreeWithSource.from_lua v st = (Except.error LErr.typeMismatch, st) ∧
      TSNode.from_lua u st = (Except.error LErr.typeMismatch, st) := by
  constructor
  · unfold TreeWithSource.from_lua create_c_function ltreesitter_check_tree_arg
    cases v with
    | treeWrapper w =>
      cases hfw : findWrapper st w with
      | none => simp [hca, hfw]
      | some wr => simp [isTreeWrapper, hfw] at hv
    | nil => simp [hca]
    | number k => simp [hca]
    | nodeRef n => simp [hca]
  · unfold TSNode.from_lua create_c_function ltreesitter_check_node
    cases u with
    | nodeRef n => simp [isNodeRef] at hu
    | nil => simp [hca]
    | number k => simp [hca]
    | treeWrapper w => simp [hca]

/-- Witness for C5: a plain number is rejected by both inbound transfers. -/
theorem from_lua_type_mismatch_witness :
    TreeWithSource.from_lua (ScriptValue.number 3) st1 =
        (Except.error LErr.typeMismatch, st1) ∧
      TSNode.from_lua (ScriptValue.number 4) st1 =
        (Except.error LErr.typeMismatch, st1) :=
  from_lua_type_mismatch st1 (ScriptValue.number 3) (ScriptValue.number 4)
    rfl rfl rfl

/-- C6: idempotent registration: when the runtime can allocate, the first
call to `open_ltreesitter` succeeds; a second call on the resulting instance
also succeeds and changes nothing (the module is not registered twice); the
module name ends up in the loaded-modules registry, at most prepended once;
and the call has no side effect beyond that registration. -/
theorem open_ltreesitter_idempotent (st : LuaState) (hca : st.canAlloc = true) :
    (open_ltreesitter st).1 = Except.ok () ∧
      open_ltreesitter (open_ltreesitter st).2 =
        (Except.ok (), (open_ltreesitter st).2) ∧
      (open_ltreesitter st).2.loaded.contains "ltreesitter" = true ∧
      ((open_ltreesitter st).2.loaded = st.loaded ∨
        (open_ltreesitter st).2.loaded = "ltreesitter" :: st.loaded) ∧
      (open_ltreesitter st).2 = { st with loaded := (open_ltreesitter st).2.loaded } := by
  obtain ⟨ld, gl, wrs, hs, nw, nh, ca⟩ := st
  replace hca : ca = true := hca
  subst hca
  unfold open_ltreesitter create_c_function luaL_requiref
  cases hld : ld.contains "ltreesitter"
  · simp [hld]
  · have hmem : "ltreesitter" ∈ ld := by simpa using hld
    simp [hld, hmem]

/-- C2: single-ownership invariant of outbound transfer: when the runtime can
allocate, `into_lua` on a host-owned handle succeeds and moves ownership of
the handle to the fresh script-side wrapper; afterwards the host cannot free
it (a host-side drop leaves it untouched), collecting the wrapper frees it
exactly once, and collecting again does not free it a second time. -/
theorem into_lua_moves_ownership_single_free (st : LuaState)
    (tws : TreeWithSource) (hr : HandleRec)
    (hca : st.canAlloc = true)
    (hfind : findHandle st tws.tree = some hr)
    (hfr : hr.frees = 0) :
    (TreeWithSource.into_lua tws st).1 =
        Except.ok (ScriptValue.treeWrapper st.nextWrapper) ∧
      findHandle (TreeWithSource.into_lua tws st).2 tws.tree =
        some { hr with owner := Owner.script st.nextWrapper } ∧
      findHandle (hostDrop (TreeWithSource.into_lua tws st).2 tws.tree) tws.tree =
        some { hr with owner := Owner.script st.nextWrapper } ∧
      findHandle
          (collectWrapper (TreeWithSource.into_lua tws st).2 st.nextWrapper)
          tws.tree =
        some { hr with owner := Owner.freed, frees := 1 } ∧
      findHandle
          (collectWrapper
            (collectWrapper (TreeWithSource.into_lua tws st).2 st.nextWrapper)
            st.nextWrapper)
          tws.tree =
        some { hr with owner := Owner.freed, frees := 1 } := by
  have hfind2 : st.handles.find? (fun r => r.id == tws.tree) = some hr := hfind
  have hid0 := List.find?_some hfind2
  have hid : (hr.id == tws.tree) = true := by simpa using hid0
  have hideq : hr.id = tws.tree := by simpa using hid
  have hpair := into_lua_ok st tws hca
  have h1 : (TreeWithSource.into_lua tws st).1 =
      Except.ok (ScriptValue.treeWrapper st.nextWrapper) := by rw [hpair]
  have h2 : findHandle (TreeWithSource.into_lua tws st).2 tws.tree =
      some { hr with owner := Owner.script st.nextWrapper } := by
    rw [hpair, findHandle_mk_wrappers, findHandle_setOwner, findHandle_setOwner,
      hfind]
    simp [hideq]
  have h3 : findHandle (hostDrop (TreeWithSource.into_lua tws st).2 tws.tree)
      tws.tree = some { hr with owner := Owner.script st.nextWrapper } := by
    rw [findHandle_hostDrop, h2]
    simp
  have hfw : findWrapper (TreeWithSource.into_lua tws st).2 st.nextWrapper =
      some { id := st.nextWrapper, treeHandle := tws.tree, srcCopy := tws.src } := by
    rw [hpair]
    exact findWrapper_push _ _ _ rfl
  have h4 : findHandle
      (collectWrapper (TreeWithSource.into_lua tws st).2 st.nextWrapper)
      tws.tree = some { hr with owner := Owner.freed, frees := 1 } := by
    rw [findHandle_collect_some _ _ _ _ hfw, h2]
    simp [hideq, hfr]
  have hnone : findWrapper
      (collectWrapper (TreeWithSource.into_lua tws st).2 st.nextWrapper)
      st.nextWrapper = none :=
    findWrapper_collect_self _ _ _ hfw
  have h5 : findHandle
      (collectWrapper
        (collectWrapper (TreeWithSource.into_lua tws st).2 st.nextWrapper)
        st.nextWrapper)
      tws.tree = some { hr with owner := Owner.freed, frees := 1 } := by
    rw [collect_none _ _ hnone]
    exact h4
  exact ⟨h1, h2, h3, h4, h5⟩

/-- Witness for C2: the concrete handle 0 of `st0`, transferred out, is
script-owned, immune to host drops, and freed exactly once by collection. -/
theorem into_lua_ownership_witness :
    (TreeWithSource.into_lua { tree := 0, src := [100, 101, 102] } st0).1 =
        Except.ok (ScriptValue.treeWrapper 5) ∧
      findHandle (TreeWithSource.into_lua { tree := 0, src := [100, 101, 102] } st0).2 0 =
        some { hr0 with owner := Owner.script 5 } ∧
      findHandle
          (hostDrop (TreeWithSource.into_lua { tree := 0, src := [100, 101, 102] } st0).2 0) 0 =
        some { hr0 with owner := Owner.script 5 } ∧
      findHandle
          (collectWrapper (TreeWithSource.into_lua { tree := 0, src := [100, 101, 102] } st0).2 5) 0 =
        some { hr0 with owner := Owner.freed, frees := 1 } ∧
      findHandle
          (collectWrapper
            (collectWrapper (TreeWithSource.into_lua { tree := 0, src := [100, 101, 102] } st0).2 5) 5) 0 =
        some { hr0 with owner := Owner.freed, frees := 1 } :=
  into_lua_moves_ownership_single_free st0 { tree := 0, src := [100, 101, 102] }
    hr0 rfl rfl rfl

/-- C3: defensive copy on inbound tree transfer: on a recognized tree
wrapper, `from_lua` returns a fresh, host-owned duplicate handle carrying the
same observable tree value, while the wrapper list is left unchanged and the
wrapper's own tree handle keeps its ownership state untouched. -/
theorem from_lua_defensive_copy (st : LuaState) (w2 : Nat) (wr : Wrapper)
    (hr : HandleRec)
    (hca : st.canAlloc = true) (hw : findWrapper st w2 = some wr)
    (hh : findHandle st wr.treeHandle = some hr)
    (hfresh : handlesFresh st = true) :
    (TreeWithSource.from_lua (ScriptValue.treeWrapper w2) st).1 =
        Except.ok
          { tree := st.nextHandle,
            src := { wrapperId := wr.id, len := wr.srcCopy.length } } ∧
      (TreeWithSource.from_lua (ScriptValue.treeWrapper w2) st).2.wrappers =
        st.wrappers ∧
      findHandle (TreeWithSource.from_lua (ScriptValue.treeWrapper w2) st).2
          st.nextHandle =
        some { id := st.nextHandle, val := hr.val, owner := Owner.host,
               frees := 0 } ∧
      wr.treeHandle ≠ st.nextHandle ∧
      findHandle (TreeWithSource.from_lua (ScriptValue.treeWrapper w2) st).2
          wr.treeHandle = some hr := by
  have hpair := from_lua_ok st w2 wr hr hca hw hh
  have hh2 : st.handles.find? (fun r => r.id == wr.treeHandle) = some hr := hh
  have hmem : hr ∈ st.handles := List.mem_of_find?_eq_some hh2
  have hid0 := List.find?_some hh2
  have hideq : hr.id = wr.treeHandle := by simpa using hid0
  have hfresh2 : st.handles.all (fun r => r.id < st.nextHandle) = true := hfresh
  have hlt : hr.id < st.nextHandle := by
    have := List.all_eq_true.mp hfresh2 hr hmem
    simpa using this
  have hne : wr.treeHandle ≠ st.nextHandle := by
    rw [← hideq]
    exact Nat.ne_of_lt hlt
  refine ⟨by rw [hpair], by rw [hpair], ?_, hne, ?_⟩
  · rw [hpair]
    unfold findHandle
    simp [List.find?]
  · rw [hpair]
    unfold findHandle
    have hbne : (st.nextHandle == wr.treeHandle) = false := by
      simp [Ne.symm hne]
    simp [List.find?, hbne]
    exact hh2

/-- Witness for C3 at the live wrapper `w1` of `st1`. -/
theorem from_lua_defensive_copy_witness :
    (TreeWithSource.from_lua (ScriptValue.treeWrapper 2) st1).1 =
        Except.ok { tree := 8, src := { wrapperId := 2, len := 2 } } ∧
      (TreeWithSource.from_lua (ScriptValue.treeWrapper 2) st1).2.wrappers =
        st1.wrappers ∧
      findHandle (TreeWithSource.from_lua (ScriptValue.treeWrapper 2) st1).2 8 =
        some { id := 8, val := t0, owner := Owner.host, frees := 0 } ∧
      (7 : Nat) ≠ 8 ∧
      findHandle (TreeWithSource.from_lua (ScriptValue.treeWrapper 2) st1).2 7 =
        some hr1 :=
  from_lua_defensive_copy st1 2 w1 hr1 rfl rfl rfl rfl

/-- C1: round-trip identity: pushing a host-owned tree with its source into
Lua and extracting it back yields a tree handle with the same observable
value (root node kind and text content) and recovers exactly the original
source bytes. -/
theorem round_trip_preserves_tree_and_source (st : LuaState)
    (tws : TreeWithSource) (hr : HandleRec)
    (hca : st.canAlloc = true)
    (hfind : findHandle st tws.tree = some hr) :
    ∃ st2 res st3,
      TreeWithSource.into_lua tws st =
        (Except.ok (ScriptValue.treeWrapper st.nextWrapper), st2) ∧
      TreeWithSource.from_lua (ScriptValue.treeWrapper st.nextWrapper) st2 =
        (Except.ok res, st3) ∧
      (findHandle st3 res.tree).map HandleRec.val = some hr.val ∧
      readSrc st3 res.src = some tws.src := by
  have hfind2 : st.handles.find? (fun r => r.id == tws.tree) = some hr := hfind
  have hid0 := List.find?_some hfind2
  have hideq : hr.id = tws.tree := by simpa using hid0
  have hpair := into_lua_ok st tws hca
  have hca2 : (TreeWithSource.into_lua tws st).2.canAlloc = true := by
    rw [hpair]
    exact hca
  have hfw : findWrapper (TreeWithSource.into_lua tws st).2 st.nextWrapper =
      some { id := st.nextWrapper, treeHandle := tws.tree, srcCopy := tws.src } := by
    rw [hpair]
    exact findWrapper_push _ _ _ rfl
  have h2 : findHandle (TreeWithSource.into_lua tws st).2 tws.tree =
      some { hr with owner := Owner.script st.nextWrapper } := by
    rw [hpair, findHandle_mk_wrappers, findHandle_setOwner, findHandle_setOwner,
      hfind]
    simp [hideq]
  have hpair2 := from_lua_ok (TreeWithSource.into_lua tws st).2 st.nextWrapper
    { id := st.nextWrapper, treeHandle := tws.tree, srcCopy := tws.src }
    { hr with owner := Owner.script st.nextWrapper } hca2 hfw h2
  refine ⟨(TreeWithSource.into_lua tws st).2, _, _, ?_, hpair2, ?_, ?_⟩
  · rw [hpair]
  · unfold findHandle
    simp [List.find?]
  · unfold readSrc findWrapper
    rw [hpair]
    simp [List.find?]

/-- Witness for C1 at the concrete tree `t0` and its three source bytes. -/
theorem round_trip_witness :
    ∃ st2 res st3,
      TreeWithSource.into_lua { tree := 0, src := [100, 101, 102] } st0 =
        (Except.ok (ScriptValue.treeWrapper 5), st2) ∧
      TreeWithSource.from_lua (ScriptValue.treeWrapper 5) st2 =
        (Except.ok res, st3) ∧
      (findHandle st3 res.tree).map HandleRec.val = some t0 ∧
      readSrc st3 res.src = some [100, 101, 102] :=
  round_trip_preserves_tree_and_source st0 { tree := 0, src := [100, 101, 102] }
    hr0 rfl rfl

/-- Witness for C6 at the fresh runtime instance `st0`. -/
theorem open_ltreesitter_idempotent_witness :
    (open_ltreesitter st0).1 = Except.ok () ∧
      open_ltreesitter (open_ltreesitter st0).2 =
        (Except.ok (), (open_ltreesitter st0).2) ∧
      (open_ltreesitter st0).2.loaded.contains "ltreesitter" = true ∧
      ((open_ltreesitter st0).2.loaded = st0.loaded ∨
        (open_ltreesitter st0).2.loaded = "ltreesitter" :: st0.loaded) ∧
      (open_ltreesitter st0).2 = { st0 with loaded := (open_ltreesitter st0).2.loaded } :=
  open_ltreesitter_idempotent st0 rfl

/-- C7: lifetime containment of inbound results: the borrowed source view
returned by the inbound tree transfer reads back the wrapper's copied bytes
while the originating wrapper is reachable, becomes unreadable once that
wrapper is collected, and unreadable once the runtime instance is destroyed;
the node returned by the inbound node transfer is likewise invalid once the
runtime is destroyed. -/
theorem inbound_results_lifetime_contained (st : LuaState) (w2 : Nat)
    (wr : Wrapper) (hr : HandleRec) (n : NodeVal)
    (hca : st.canAlloc = true) (hw : findWrapper st w2 = some wr)
    (hh : findHandle st wr.treeHandle = some hr) :
    readSrc (TreeWithSource.from_lua (ScriptValue.treeWrapper w2) st).2
        { wrapperId := wr.id, len := wr.srcCopy.length } = some wr.srcCopy ∧
      readSrc
        (collectWrapper
          (TreeWithSource.from_lua (ScriptValue.treeWrapper w2) st).2 wr.id)
        { wrapperId := wr.id, len := wr.srcCopy.length } = none ∧
      readSrc
        (destroyRuntime (TreeWithSource.from_lua (ScriptValue.treeWrapper w2) st).2)
        { wrapperId := wr.id, len := wr.srcCopy.length } = none ∧
      TSNode.from_lua (ScriptValue.nodeRef n) st = (Except.ok { node := n }, st) ∧
      nodeValid (destroyRuntime st) n = false := by
  have hpair := from_lua_ok st w2 wr hr hca hw hh
  have hw2 : st.wrappers.find? (fun x => x.id == w2) = some wr := hw
  have hid0 := List.find?_some hw2
  have hideq : wr.id = w2 := by simpa using hid0
  have hlive : readSrc (TreeWithSource.from_lua (ScriptValue.treeWrapper w2) st).2
      { wrapperId := wr.id, len := wr.srcCopy.length } = some wr.srcCopy := by
    rw [hpair]
    unfold readSrc findWrapper
    simp only [hideq]
    simp [hw2, List.take_length]
  have hfw3 : findWrapper (TreeWithSource.from_lua (ScriptValue.treeWrapper w2) st).2
      wr.id = some wr := by
    rw [hpair]
    unfold findWrapper
    simp only [hideq]
    exact hw2
  have hnone := findWrapper_collect_self _ _ _ hfw3
  refine ⟨hlive, ?_, ?_, ?_, ?_⟩
  · unfold readSrc
    rw [hnone]
    rfl
  · rw [hpair]
    unfold readSrc findWrapper destroyRuntime
    simp
  · unfold TSNode.from_lua create_c_function ltreesitter_check_node
    simp [hca]
  · unfold nodeValid destroyRuntime findWrapper
    simp

/-- Witness for C7 at the live wrapper `w1` of `st1` and a concrete node. -/
theorem inbound_results_lifetime_witness :
    readSrc (TreeWithSource.from_lua (ScriptValue.treeWrapper 2) st1).2
        { wrapperId := 2, len := 2 } = some [10, 11] ∧
      readSrc
        (collectWrapper (TreeWithSource.from_lua (ScriptValue.treeWrapper 2) st1).2 2)
        { wrapperId := 2, len := 2 } = none ∧
      readSrc (destroyRuntime (TreeWithSource.from_lua (ScriptValue.treeWrapper 2) st1).2)
        { wrapperId := 2, len := 2 } = none ∧
      TSNode.from_lua (ScriptValue.nodeRef { kind := "call", wrapperId := 2 }) st1 =
        (Except.ok { node := { kind := "call", wrapperId := 2 } }, st1) ∧
      nodeValid (destroyRuntime st1) { kind := "call", wrapperId := 2 } = false :=
  inbound_results_lifetime_contained st1 2 w1 hr1
    { kind := "call", wrapperId := 2 } rfl rfl rfl

/-- C4 counterexample: with a runtime that cannot allocate the native call
frame, the outbound transfer of handle 0 fails — but not with "no effect":
the host value has already relinquished the handle (`into_raw` runs before
the fallible callback creation, src/src/lib.rs:151 vs 154), so after the
failed call the state differs from the initial one and the handle is tagged
`raw`: no longer host-owned, not script-owned, and never freed. -/
theorem into_lua_failure_not_effect_free :
    (TreeWithSource.into_lua { tree := 0, src := [100, 101, 102] } st0bad).1 =
        Except.error LErr.runtimeError ∧
      (TreeWithSource.into_lua { tree := 0, src := [100, 101, 102] } st0bad).2 ≠
        st0bad ∧
      findHandle
          (TreeWithSource.into_lua { tree := 0, src := [100, 101, 102] } st0bad).2 0 =
        some { hr0 with owner := Owner.raw } := by
  refine ⟨rfl, ?_, rfl⟩
  decide

/-- C4 amended: the inbound transfers are atomic — on any failure they return
the runtime state unchanged — and a successful outbound transfer moves
ownership of the handle fully to the fresh wrapper; but a failing outbound
transfer is not effect-free: the handle was already relinquished by the host
(`into_raw` precedes the fallible callback creation) and no wrapper adopts
it, so it is left `raw` — leaked, owned by neither side, never freed. -/
theorem transfer_atomicity_amended :
    (∀ v st e, (TreeWithSource.from_lua v st).1 = Except.error e →
        (TreeWithSource.from_lua v st).2 = st) ∧
      (∀ v st e, (TSNode.from_lua v st).1 = Except.error e →
        (TSNode.from_lua v st).2 = st) ∧
      (∀ tws st hr, st.canAlloc = false → findHandle st tws.tree = some hr →
        (TreeWithSource.into_lua tws st).1 = Except.error LErr.runtimeError ∧
          findHandle (TreeWithSource.into_lua tws st).2 tws.tree =
            some { hr with owner := Owner.raw }) ∧
      (∀ tws st hr, st.canAlloc = true → findHandle st tws.tree = some hr →
        (TreeWithSource.into_lua tws st).1 =
            Except.ok (ScriptValue.treeWrapper st.nextWrapper) ∧
          findHandle (TreeWithSource.into_lua tws st).2 tws.tree =
            some { hr with owner := Owner.script st.nextWrapper }) := by
  refine ⟨?_, ?_, ?_, ?_⟩
  · intro v st e h
    unfold TreeWithSource.from_lua at h ⊢
    cases hc : create_c_function st with
    | error e2 => simp [hc]
    | ok u =>
      cases hch : ltreesitter_check_tree_arg st v with
      | error e2 => simp [hc, hch]
      | ok wr =>
        cases hf : findHandle st wr.treeHandle with
        | none => simp [hc, hch, hf]
        | some hrr =>
          simp only [hc, hch, hf] at h
          simp at h
  · intro v st e h
    unfold TSNode.from_lua at h ⊢
    cases hc : create_c_function st with
    | error e2 => simp [hc]
    | ok u =>
      cases hch : ltreesitter_check_node v with
      | error e2 => simp [hc, hch]
      | ok n =>
        simp only [hc, hch] at h
        simp at h
  · intro tws st hr hca hfind
    have hfind2 : st.handles.find? (fun r => r.id == tws.tree) = some hr := hfind
    have hid0 := List.find?_some hfind2
    have hideq : hr.id = tws.tree := by simpa using hid0
    have hpair := into_lua_fail st tws hca
    refine ⟨by rw [hpair], ?_⟩
    rw [hpair, findHandle_setOwner, hfind]
    simp [hideq]
  · intro tws st hr hca hfind
    have hfind2 : st.handles.find? (fun r => r.id == tws.tree) = some hr := hfind
    have hid0 := List.find?_some hfind2
    have hideq : hr.id = tws.tree := by simpa using hid0
    have hpair := into_lua_ok st tws hca
    refine ⟨by rw [hpair], ?_⟩
    rw [hpair, findHandle_mk_wrappers, findHandle_setOwner, findHandle_setOwner,
      hfind]
    simp [hideq]

/-- Witness for C4's amended statement: each arm applied at a concrete
input. -/
theorem transfer_atomicity_amended_witness :
    (TreeWithSource.from_lua (ScriptValue.number 9) st1).2 = st1 ∧
      (TSNode.from_lua (ScriptValue.number 9) st1).2 = st1 ∧
      ((TreeWithSource.into_lua { tree := 0, src := [100, 101, 102] } st0bad).1 =
          Except.error LErr.runtimeError ∧
        findHandle
            (TreeWithSource.into_lua { tree := 0, src := [100, 101, 102] } st0bad).2 0 =
          some { hr0 with owner := Owner.raw }) ∧
      ((TreeWithSource.into_lua { tree := 0, src := [103] } st0).1 =
          Except.ok (ScriptValue.treeWrapper 5) ∧
        findHandle (TreeWithSource.into_lua { tree := 0, src := [103] } st0).2 0 =
          some { hr0 with owner := Owner.script 5 }) :=
  ⟨transfer_atomicity_amended.1 (ScriptValue.number 9) st1 LErr.typeMismatch rfl,
   transfer_atomicity_amended.2.1 (ScriptValue.number 9) st1 LErr.typeMismatch rfl,
   transfer_atomicity_amended.2.2.1 { tree := 0, src := [100, 101, 102] } st0bad
     hr0 rfl rfl,
   transfer_atomicity_amended.2.2.2 { tree := 0, src := [103] } st0 hr0 rfl rfl⟩

end MluaTreeSitter
